import Mathlib

/-!
Verification of the devman generation-plan / conflict-detection core.

The definitions below are a shallow embedding of the Python sources:
  * `src/devman/copier_engine.py` — `_read_file_safe`, `snapshot_render_to_memory`,
    `plan_against_destination`;
  * `src/devman/models.py` — `FileSnapshot`, `GenerationPlan.analyze_conflicts`,
    `TemplateEngine._create_file_snapshot`, `ProjectConfig.model_post_init`,
    `ProjectConfig._slugify`;
  * `src/devman/validation.py` — `ProjectValidator.validate_project_name`,
    `ProjectValidator.validate_destination`.

File contents are modelled abstractly: a file on disk either decodes as UTF-8
(carrying the decoded string; its byte size is the UTF-8 byte size of that
string) or it does not (carrying its raw bytes).  Machine-level I/O errors other
than `UnicodeDecodeError` are outside the model, as in the source's own
`try/except` discipline.
-/

namespace Devman

/-- Content of a file: either bytes that decode as UTF-8 (represented by the
decoded string) or bytes that do not (represented by the raw byte list). -/
inductive FileContent where
  | text (s : String)
  | binary (bytes : List Nat)
deriving DecidableEq, Repr

/-- Byte length of a file's content (`stat().st_size` / `len(raw)`). -/
def FileContent.byteSize : FileContent → Nat
  | .text s => s.utf8ByteSize
  | .binary b => b.length

/-- The dict produced by `_read_file_safe` in `copier_engine.py`:
`{"type": "text", "text": t, "size": st_size}` on successful UTF-8 decode,
`{"type": "binary", "b64": payload, "size": len(raw)}` on `UnicodeDecodeError`.
The base64 payload is modelled by the raw bytes it encodes. -/
structure RawRecord where
  type : String
  text : Option String
  payload : Option (List Nat)
  size : Nat
deriving DecidableEq, Repr

/-- `_read_file_safe` (`copier_engine.py` lines 64-76). -/
def read_file_safe : FileContent → RawRecord
  | .text s => ⟨"text", some s, none, s.utf8ByteSize⟩
  | .binary b => ⟨"binary", none, some b, b.length⟩

/-- State of the destination root: absent, a plain file, or a directory whose
files are given by an association list from relative POSIX path to content. -/
inductive DestRoot where
  | missing
  | file (c : FileContent)
  | dir (entries : List (String × FileContent))
deriving DecidableEq, Repr

/-- `(dest / rel).exists()` + reading: a path under the root resolves to a file
only when the root is a directory holding it (a plain file has no children). -/
def DestRoot.lookup : DestRoot → String → Option FileContent
  | .dir entries, rel => entries.lookup rel
  | _, _ => none

/-- One row of the plan returned by `plan_against_destination`. -/
structure PlanEntry where
  path : String
  status : String
  size : Nat
  note : String
deriving DecidableEq, Repr

/-- The `same` test of `plan_against_destination` (lines 130-134): when the
existing file decodes as UTF-8, `same = meta.get("type") == "text" and
existing == meta.get("text")`; on `UnicodeDecodeError`,
`same = target.stat().st_size == size`. -/
def contentSame (meta : RawRecord) (existing : FileContent) : Bool :=
  match existing with
  | .text existingText => meta.type == "text" && meta.text == some existingText
  | .binary b => b.length == meta.size

/-- Classification of a single snapshot entry against the destination,
following the branch structure of `plan_against_destination` (lines 126-167). -/
def classify (force : Bool) (rel : String) (meta : RawRecord)
    (existing : Option FileContent) : PlanEntry :=
  match existing with
  | none => ⟨rel, "create", meta.size, ""⟩
  | some fc =>
    if contentSame meta fc then
      if force then ⟨rel, "overwrite", meta.size, "identical content"⟩
      else ⟨rel, "skip-identical", meta.size, ""⟩
    else
      if force then ⟨rel, "overwrite", meta.size, ""⟩
      else ⟨rel, "skip-exists", meta.size, "use --force to overwrite"⟩

/-- Python's lexicographic string comparison, stated on the code-point lists
(equivalent to `String` order, see `pathLE_iff_le`). -/
def pathLE (a b : String) : Prop := a.toList ≤ b.toList

instance : DecidableRel pathLE := fun a b => inferInstanceAs (Decidable (a.toList ≤ b.toList))

instance : IsTotal String pathLE := ⟨fun a b => le_total a.toList b.toList⟩

instance : IsTrans String pathLE := ⟨fun _ _ _ h₁ h₂ => le_trans h₁ h₂⟩

/-- Order on plan entries used by the final `sorted(plan, key=lambda x: x["path"])`. -/
def entryLE (a b : PlanEntry) : Prop := pathLE a.path b.path

instance : DecidableRel entryLE := fun a b => inferInstanceAs (Decidable (pathLE a.path b.path))

instance : IsTotal PlanEntry entryLE := ⟨fun a b => le_total a.path.toList b.path.toList⟩

instance : IsTrans PlanEntry entryLE := ⟨fun _ _ _ h₁ h₂ => le_trans h₁ h₂⟩

/-- Strict version of `entryLE`, used to identify sorted lists with distinct paths. -/
def entryLT (a b : PlanEntry) : Prop := a.path.toList < b.path.toList

instance : IsAntisymm PlanEntry entryLT := ⟨fun _ _ h₁ h₂ => absurd h₂ (lt_asymm h₁)⟩

/-- `plan_against_destination` (`copier_engine.py` lines 117-168): classify each
snapshot item against the destination in iteration order, then sort by path.
The Python dict is modelled as an association list in iteration order. -/
def plan_against_destination (snapshot : List (String × RawRecord)) (dest : DestRoot)
    (force : Bool) : List PlanEntry :=
  List.insertionSort entryLE
    (snapshot.map fun kv => classify force kv.1 kv.2 (dest.lookup kv.1))

/-- Modelled from the spec: the derived `conflicts` set of a Plan, "the sorted
set of all paths with status `skip-exists`" (spec section 4.2 step 3).  No
function in `copier_engine.py` computes this; it is the spec-side definition
used to compare against the repository's own conflicts collection. -/
def conflictsFromPlan (plan : List PlanEntry) : List String :=
  (plan.filter fun e => e.status == "skip-exists").map PlanEntry.path

/-- `FileSnapshot` (`models.py` lines 63-68). -/
structure FileSnapshot where
  content : String
  size : Nat
  is_binary : Bool
deriving DecidableEq, Repr

/-- `TemplateEngine._create_file_snapshot` (`models.py` lines 229-245): on a
successful decode the recorded size is `len(content)`, the number of decoded
characters; only the binary branch records the byte length. -/
def create_file_snapshot : FileContent → FileSnapshot
  | .text s => ⟨s, s.length, false⟩
  | .binary b => ⟨"<binary file: " ++ toString b.length ++ " bytes>", b.length, true⟩

/-- `GenerationPlan.analyze_conflicts` (`models.py` lines 81-92): with `force`
it returns `[]`; otherwise it collects, in iteration order of `self.files`,
every relative path whose destination target exists — without comparing
content. -/
def analyze_conflicts (files : List (String × FileSnapshot)) (destination : DestRoot)
    (force : Bool) : List String :=
  if force then []
  else (files.filter fun kv => (destination.lookup kv.1).isSome).map Prod.fst

/-- The snapshot record mapping produced from underlying rendered file contents
(`snapshot_render_to_memory` stores `_read_file_safe(p)` per file). -/
def snapshotRecords (rendered : List (String × FileContent)) : List (String × RawRecord) :=
  rendered.map fun kv => (kv.1, read_file_safe kv.2)

/-- A path emitted by the external renderer into the sandbox, as a segment
list: relative to the sandbox root, or absolute (outside the sandbox). -/
inductive RenderPath where
  | rel (segs : List String)
  | abs (segs : List String)
deriving DecidableEq, Repr

/-- Resolve a relative segment list against the sandbox root: `.` and empty
segments vanish, `..` pops; popping an empty stack means the path escapes the
root and the file does not land under the sandbox (`none`). -/
def resolveSegs : List String → List String → Option (List String)
  | stack, [] => some stack.reverse
  | stack, seg :: rest =>
    if seg = "" ∨ seg = "." then resolveSegs stack rest
    else if seg = ".." then
      match stack with
      | [] => none
      | _ :: t => resolveSegs t rest
    else resolveSegs (seg :: stack) rest

/-- `snapshot_render_to_memory` (`copier_engine.py` lines 79-114): the render
runs in a temporary sandbox and the walk collects exactly the files that
physically land under the sandbox root, keyed by `relative_to(tmp).as_posix()`
(modelled as the resolved segment list).  Rendered paths that escape the root
are simply never encountered by the walk; no validation is performed. -/
def snapshot_render_to_memory (render : List (RenderPath × FileContent)) :
    List (List String × RawRecord) :=
  render.filterMap fun pf =>
    match pf.1 with
    | .abs _ => none
    | .rel segs => (resolveSegs [] segs).map fun rs => (rs, read_file_safe pf.2)

/-- Character class `[a-z0-9_-]` of `_slugify`'s first regex. -/
def isSlugChar (c : Char) : Bool :=
  ('a' ≤ c && c ≤ 'z') || ('0' ≤ c && c ≤ '9') || c == '_' || c == '-'

/-- Collapse every run of hyphens to a single hyphen (`re.sub(r"-+", "-", ...)`). -/
def collapseHyphens : List Char → List Char
  | [] => []
  | [c] => [c]
  | c :: d :: rest =>
    if c == '-' && d == '-' then collapseHyphens (d :: rest)
    else c :: collapseHyphens (d :: rest)

/-- Python `str.strip`-style removal of characters satisfying `p` from both ends. -/
def stripBoth (p : Char → Bool) (cs : List Char) : List Char :=
  ((cs.dropWhile p).reverse.dropWhile p).reverse

/-- `ProjectConfig._slugify` (`models.py` lines 53-60): strip whitespace, lower,
replace each character outside `[a-z0-9_-]` by a hyphen (replacing a maximal
run of such characters by one hyphen and then collapsing hyphen runs equals
replacing each such character and then collapsing hyphen runs), collapse hyphen
runs, strip hyphens, defaulting to `"project"` when nothing remains. -/
def slugify (name : String) : String :=
  let dashed := ((stripBoth Char.isWhitespace name.data).map Char.toLower).map
    fun c => if isSlugChar c then c else '-'
  let trimmed := stripBoth (fun c => c == '-') (collapseHyphens dashed)
  if trimmed.isEmpty then "project" else String.mk trimmed

/-- Replace every maximal run of characters outside `[a-z0-9_-]` by a single
hyphen, leaving characters inside the class (including literal hyphens) alone. -/
def replaceBadRuns : List Char → List Char
  | [] => []
  | [c] => if isSlugChar c then [c] else ['-']
  | c :: d :: rest =>
    if isSlugChar c then c :: replaceBadRuns (d :: rest)
    else if isSlugChar d then '-' :: replaceBadRuns (d :: rest)
    else replaceBadRuns (d :: rest)

/-- Modelled from the spec: slugification exactly as the claim words it —
lowercase, runs of characters outside `[a-z0-9_-]` collapsed to single
hyphens, no leading or trailing hyphens, defaulting to `"project"` when
nothing remains.  (Unlike `slugify`, runs of literal hyphens are kept.) -/
def slugClaim (name : String) : String :=
  let trimmed := stripBoth (fun c => c == '-') (replaceBadRuns (name.data.map Char.toLower))
  if trimmed.isEmpty then "project" else String.mk trimmed

/-- First character class of the name regex `^[a-zA-Z_][a-zA-Z0-9_-]*$`. -/
def isNameStartChar (c : Char) : Bool :=
  ('a' ≤ c && c ≤ 'z') || ('A' ≤ c && c ≤ 'Z') || c == '_'

/-- Remaining character class of the name regex. -/
def isNameChar (c : Char) : Bool :=
  isNameStartChar c || ('0' ≤ c && c ≤ '9') || c == '-'

/-- `ProjectValidator.RESERVED_NAMES` (`validation.py` lines 57-67). -/
def RESERVED_NAMES : List String :=
  ["con", "prn", "aux", "nul", "python", "pip", "setuptools", "src", "lib"]

/-- Python `str.lower` on the (ASCII) names this validator accepts. -/
def lowerStr (s : String) : String := String.mk (s.data.map Char.toLower)

/-- `ProjectValidator.validate_project_name` (`validation.py` lines 69-102) as
a Boolean: `true` exactly when no branch raises `InvalidProjectNameError`.
The one-character `startswith`/`endswith` probes are stated on the first and
last character (the `startswith(("-", "_"))` branch only raises for `"-"`,
and the preceding length check makes its `len > 1` guard redundant). -/
def validate_project_name (name : String) : Bool :=
  !name.isEmpty &&
  !(stripBoth Char.isWhitespace name.data).isEmpty &&
  name.length ≤ 100 &&
  2 ≤ name.length &&
  (match name.data with
   | [] => false
   | c :: rest => isNameStartChar c && rest.all isNameChar) &&
  !(RESERVED_NAMES.contains (lowerStr name)) &&
  !(name.data.head? == some '-') &&
  !(name.data.getLast? == some '-') && !(name.data.getLast? == some '_')

/-- The three fields of `ProjectConfig` that `model_post_init` touches. -/
structure ProjectConfig where
  project_name : String
  project_slug : String
  package_name : String
deriving DecidableEq, Repr

/-- Python `slug.replace("-", "_")`. -/
def replaceHyphens (s : String) : String :=
  String.mk (s.data.map fun c => if c == '-' then '_' else c)

/-- `ProjectConfig.model_post_init` (`models.py` lines 47-51): fill an empty
`project_slug` from `_slugify(project_name)`, then fill an empty
`package_name` from the (possibly just filled) slug with hyphens replaced by
underscores. -/
def model_post_init (cfg : ProjectConfig) : ProjectConfig :=
  let slug := if cfg.project_slug = "" then slugify cfg.project_name else cfg.project_slug
  let pkg := if cfg.package_name = "" then replaceHyphens slug else cfg.package_name
  { cfg with project_slug := slug, package_name := pkg }

/-- The destination-shape checks of `ProjectValidator.validate_destination`
(`validation.py` lines 130-139): error when the destination exists as a plain
file; error when it is a non-empty directory and `force` is not set.  The
parent-directory and write-permission probes are machine I/O outside the
model. -/
def validate_destination (root : DestRoot) (force : Bool) : Except String Unit :=
  match root with
  | .file _ => .error "Destination exists and is a file"
  | .dir entries =>
    if !force && !entries.isEmpty then .error "Project directory already exists"
    else .ok ()
  | .missing => .ok ()

/-! Helper lemmas shared by several claims. -/

/-- The order `pathLE` used for sorting is the standard string order. -/
theorem pathLE_iff_le (a b : String) : pathLE a b ↔ a ≤ b :=
  String.le_iff_toList_le.symm

/-- A destination file byte-identical to a snapshot entry passes the planner's `same` test. -/
theorem contentSame_self (fc : FileContent) : contentSame (read_file_safe fc) fc = true := by
  cases fc <;> simp [contentSame, read_file_safe]

/-- The classification keeps the relative path. -/
theorem classify_path (force : Bool) (rel : String) (meta : RawRecord)
    (existing : Option FileContent) : (classify force rel meta existing).path = rel := by
  cases existing with
  | none => rfl
  | some fc =>
    simp only [classify]
    split <;> split <;> rfl

/-- Membership in the plan is membership in the classified snapshot. -/
theorem mem_plan_iff (snapshot : List (String × RawRecord)) (dest : DestRoot) (force : Bool)
    (e : PlanEntry) :
    e ∈ plan_against_destination snapshot dest force ↔
      ∃ kv ∈ snapshot, classify force kv.1 kv.2 (dest.lookup kv.1) = e := by
  unfold plan_against_destination
  rw [(List.perm_insertionSort entryLE _).mem_iff]
  exact List.mem_map

/-- Unfolding membership in `snapshotRecords`. -/
theorem mem_snapshotRecords {rendered : List (String × FileContent)} {kv : String × RawRecord}
    (h : kv ∈ snapshotRecords rendered) :
    ∃ fc, (kv.1, fc) ∈ rendered ∧ kv.2 = read_file_safe fc := by
  rcases List.mem_map.mp h with ⟨ab, hab, rfl⟩
  exact ⟨ab.2, by simpa using hab, rfl⟩

/-- Claim C1, as stated, is false at this input: the destination holds exactly
the snapshot's bytes at every path and planning with `force = False` classifies
everything `skip-identical`, yet the conflicts collection computed by
`GenerationPlan.analyze_conflicts` is `["a.txt"]`, not empty — it lists every
path whose destination file exists without comparing content. -/
theorem C1_counterexample :
    (∀ e ∈ plan_against_destination (snapshotRecords [("a.txt", FileContent.text "hello")])
        (DestRoot.dir [("a.txt", FileContent.text "hello")]) false,
      e.status = "skip-identical")
    ∧ analyze_conflicts [("a.txt", create_file_snapshot (FileContent.text "hello"))]
        (DestRoot.dir [("a.txt", FileContent.text "hello")]) false = ["a.txt"]
    ∧ (["a.txt"] : List String) ≠ [] := by
  refine ⟨by decide, by decide, by decide⟩

/-- Claim C1 (amended): for every destination holding, at each snapshot path, a
file byte-identical to the snapshot's content, planning with `force = False`
classifies every entry `skip-identical`, and the conflicts set derived from the
plan (its `skip-exists` paths) is empty; the conflicts list computed by
`GenerationPlan.analyze_conflicts`, however, contains every path whose
destination file exists regardless of content, hence here every snapshot path. -/
theorem C1_amended_theorem (rendered : List (String × FileContent)) (dest : DestRoot)
    (h : ∀ kv ∈ rendered, dest.lookup kv.1 = some kv.2) :
    (∀ e ∈ plan_against_destination (snapshotRecords rendered) dest false,
        e.status = "skip-identical")
    ∧ conflictsFromPlan (plan_against_destination (snapshotRecords rendered) dest false) = []
    ∧ analyze_conflicts (rendered.map fun kv => (kv.1, create_file_snapshot kv.2)) dest false
        = rendered.map Prod.fst := by
  have hstat : ∀ e ∈ plan_against_destination (snapshotRecords rendered) dest false,
      e.status = "skip-identical" := by
    intro e he
    rcases (mem_plan_iff _ _ _ _).mp he with ⟨kv, hkv, rfl⟩
    rcases mem_snapshotRecords hkv with ⟨fc, hfc, hr⟩
    rw [hr, h (kv.1, fc) hfc]
    simp [classify, contentSame_self]
  refine ⟨hstat, ?_, ?_⟩
  · unfold conflictsFromPlan
    rw [List.filter_eq_nil_iff.mpr, List.map_nil]
    intro e he
    simp [hstat e he]
  · unfold analyze_conflicts
    rw [if_neg (by simp), List.filter_eq_self.mpr, List.map_map]
    · rfl
    · intro kv hkv
      rcases List.mem_map.mp hkv with ⟨ab, hab, rfl⟩
      simp [h ab hab]

/-- Claim C1 witness: the amended theorem applied at a concrete identical
destination. -/
theorem C1_witness :
    (∀ e ∈ plan_against_destination (snapshotRecords [("a.txt", FileContent.text "hi")])
        (DestRoot.dir [("a.txt", FileContent.text "hi")]) false,
        e.status = "skip-identical")
    ∧ conflictsFromPlan (plan_against_destination
        (snapshotRecords [("a.txt", FileContent.text "hi")])
        (DestRoot.dir [("a.txt", FileContent.text "hi")]) false) = []
    ∧ analyze_conflicts ([("a.txt", FileContent.text "hi")].map fun kv =>
        (kv.1, create_file_snapshot kv.2))
        (DestRoot.dir [("a.txt", FileContent.text "hi")]) false
        = [("a.txt", FileContent.text "hi")].map Prod.fst :=
  C1_amended_theorem [("a.txt", FileContent.text "hi")]
    (DestRoot.dir [("a.txt", FileContent.text "hi")]) (by decide)

/-- Claim C2: with `force = False`, a snapshot path whose destination file
exists and whose content differs (per the planner's comparison, section 4.2a:
decoded-string equality for decodable files, size-only fallback otherwise)
gets status `skip-exists` with note "use --force to overwrite" and appears in
the conflicts: both in the plan-derived `skip-exists` set and in
`GenerationPlan.analyze_conflicts`; a path whose existing content is identical
gets `skip-identical` with an empty note. -/
theorem C2_theorem (snapshot : List (String × RawRecord)) (dest : DestRoot)
    (rel : String) (meta : RawRecord) (fc : FileContent)
    (hmem : (rel, meta) ∈ snapshot) (hex : dest.lookup rel = some fc) :
    (contentSame meta fc = false →
        (⟨rel, "skip-exists", meta.size, "use --force to overwrite"⟩ : PlanEntry)
            ∈ plan_against_destination snapshot dest false
        ∧ rel ∈ conflictsFromPlan (plan_against_destination snapshot dest false)
        ∧ ∀ (files : List (String × FileSnapshot)) (fs : FileSnapshot),
            (rel, fs) ∈ files → rel ∈ analyze_conflicts files dest false)
    ∧ (contentSame meta fc = true →
        (⟨rel, "skip-identical", meta.size, ""⟩ : PlanEntry)
            ∈ plan_against_destination snapshot dest false) := by
  constructor
  · intro hdiff
    have hcl : classify false rel meta (dest.lookup rel)
        = ⟨rel, "skip-exists", meta.size, "use --force to overwrite"⟩ := by
      rw [hex]; simp [classify, hdiff]
    have hp : (⟨rel, "skip-exists", meta.size, "use --force to overwrite"⟩ : PlanEntry)
        ∈ plan_against_destination snapshot dest false :=
      (mem_plan_iff _ _ _ _).mpr ⟨(rel, meta), hmem, hcl⟩
    refine ⟨hp, ?_, ?_⟩
    · exact List.mem_map.mpr
        ⟨_, List.mem_filter.mpr ⟨hp, by simp⟩, rfl⟩
    · intro files fs hfs
      unfold analyze_conflicts
      rw [if_neg (by simp)]
      exact List.mem_map.mpr ⟨(rel, fs), List.mem_filter.mpr ⟨hfs, by simp [hex]⟩, rfl⟩
  · intro hsame
    have hcl : classify false rel meta (dest.lookup rel)
        = ⟨rel, "skip-identical", meta.size, ""⟩ := by
      rw [hex]; simp [classify, hsame]
    exact (mem_plan_iff _ _ _ _).mpr ⟨(rel, meta), hmem, hcl⟩

/-- Claim C2 witness: a destination with `a.txt` identical and `b.txt`
differing, planned with `force = False`. -/
theorem C2_witness :
    contentSame (read_file_safe (FileContent.text "new")) (FileContent.text "old") = false
    ∧ ((⟨"b.txt", "skip-exists", 3, "use --force to overwrite"⟩ : PlanEntry)
        ∈ plan_against_destination
          [("a.txt", read_file_safe (FileContent.text "hi")),
           ("b.txt", read_file_safe (FileContent.text "new"))]
          (DestRoot.dir [("a.txt", FileContent.text "hi"), ("b.txt", FileContent.text "old")])
          false
      ∧ "b.txt" ∈ conflictsFromPlan (plan_against_destination
          [("a.txt", read_file_safe (FileContent.text "hi")),
           ("b.txt", read_file_safe (FileContent.text "new"))]
          (DestRoot.dir [("a.txt", FileContent.text "hi"), ("b.txt", FileContent.text "old")])
          false)
      ∧ ∀ (files : List (String × FileSnapshot)) (fs : FileSnapshot),
          ("b.txt", fs) ∈ files →
            "b.txt" ∈ analyze_conflicts files
              (DestRoot.dir [("a.txt", FileContent.text "hi"), ("b.txt", FileContent.text "old")])
              false) :=
  ⟨by decide,
   (C2_theorem
      [("a.txt", read_file_safe (FileContent.text "hi")),
       ("b.txt", read_file_safe (FileContent.text "new"))]
      (DestRoot.dir [("a.txt", FileContent.text "hi"), ("b.txt", FileContent.text "old")])
      "b.txt" (read_file_safe (FileContent.text "new")) (FileContent.text "old")
      (by decide) (by decide)).1 (by decide)⟩

/-- The status produced under `force = True` is never a skip. -/
theorem classify_force_status (rel : String) (meta : RawRecord)
    (existing : Option FileContent) :
    (classify true rel meta existing).status = "create"
    ∨ (classify true rel meta existing).status = "overwrite" := by
  cases existing with
  | none => exact Or.inl rfl
  | some fc =>
    simp only [classify]
    split <;> exact Or.inr rfl

/-- Claim C3: with `force = True`, every snapshot path whose destination file
exists is classified `overwrite` with note "identical content" exactly when
the existing content passes the planner's equality test and note `""`
otherwise; no entry of the plan is `skip-exists` or `skip-identical`, the
plan-derived conflicts set is empty, and `analyze_conflicts` records nothing. -/
theorem C3_theorem (snapshot : List (String × RawRecord)) (dest : DestRoot) :
    (∀ kv ∈ snapshot, ∀ fc, dest.lookup kv.1 = some fc →
        (⟨kv.1, "overwrite", kv.2.size,
            if contentSame kv.2 fc then "identical content" else ""⟩ : PlanEntry)
          ∈ plan_against_destination snapshot dest true)
    ∧ (∀ e ∈ plan_against_destination snapshot dest true,
        e.status ≠ "skip-exists" ∧ e.status ≠ "skip-identical")
    ∧ conflictsFromPlan (plan_against_destination snapshot dest true) = []
    ∧ ∀ files, analyze_conflicts files dest true = [] := by
  have hstat : ∀ e ∈ plan_against_destination snapshot dest true,
      e.status ≠ "skip-exists" ∧ e.status ≠ "skip-identical" := by
    intro e he
    rcases (mem_plan_iff _ _ _ _).mp he with ⟨kv, _, rfl⟩
    rcases classify_force_status kv.1 kv.2 (dest.lookup kv.1) with h | h <;>
      rw [h] <;> exact ⟨by decide, by decide⟩
  refine ⟨?_, hstat, ?_, fun files => rfl⟩
  · intro kv hkv fc hfc
    refine (mem_plan_iff _ _ _ _).mpr ⟨kv, hkv, ?_⟩
    rw [hfc]
    by_cases hs : contentSame kv.2 fc = true
    · simp [classify, hs]
    · simp only [Bool.not_eq_true] at hs
      simp [classify, hs]
  · unfold conflictsFromPlan
    rw [List.filter_eq_nil_iff.mpr, List.map_nil]
    intro e he
    simpa using (hstat e he).1

/-- Claim C3 witness: the theorem applied to a destination holding an
identical `a.txt` and a differing `b.txt`, with `force = True`. -/
theorem C3_witness :
    ((⟨"a.txt", "overwrite", 2,
        if contentSame (read_file_safe (FileContent.text "hi")) (FileContent.text "hi")
        then "identical content" else ""⟩ : PlanEntry)
      ∈ plan_against_destination
          [("a.txt", read_file_safe (FileContent.text "hi")),
           ("b.txt", read_file_safe (FileContent.text "new"))]
          (DestRoot.dir [("a.txt", FileContent.text "hi"), ("b.txt", FileContent.text "old")])
          true)
    ∧ conflictsFromPlan (plan_against_destination
        [("a.txt", read_file_safe (FileContent.text "hi")),
         ("b.txt", read_file_safe (FileContent.text "new"))]
        (DestRoot.dir [("a.txt", FileContent.text "hi"), ("b.txt", FileContent.text "old")])
        true) = [] :=
  ⟨(C3_theorem
      [("a.txt", read_file_safe (FileContent.text "hi")),
       ("b.txt", read_file_safe (FileContent.text "new"))]
      (DestRoot.dir [("a.txt", FileContent.text "hi"), ("b.txt", FileContent.text "old")])).1
      ("a.txt", read_file_safe (FileContent.text "hi")) (by decide)
      (FileContent.text "hi") (by decide),
   (C3_theorem
      [("a.txt", read_file_safe (FileContent.text "hi")),
       ("b.txt", read_file_safe (FileContent.text "new"))]
      (DestRoot.dir [("a.txt", FileContent.text "hi"), ("b.txt", FileContent.text "old")])).2.2.1⟩

/-- Sorted by path and with distinct paths means strictly sorted. -/
theorem sorted_entryLT_of_nodup {l : List PlanEntry} (hs : l.Sorted entryLE)
    (hnd : (l.map PlanEntry.path).Nodup) : l.Sorted entryLT := by
  have hne : l.Pairwise fun a b => a.path ≠ b.path := List.pairwise_map.mp hnd
  refine (hs.and hne).imp ?_
  rintro a b ⟨hle, hne'⟩
  exact lt_of_le_of_ne hle fun hc => hne' (String.toList_inj.mp hc)

/-- The plan's paths are a permutation of the snapshot's keys. -/
theorem plan_paths_perm (snapshot : List (String × RawRecord)) (dest : DestRoot)
    (force : Bool) :
    ((plan_against_destination snapshot dest force).map PlanEntry.path).Perm
      (snapshot.map Prod.fst) := by
  unfold plan_against_destination
  refine ((List.perm_insertionSort entryLE _).map PlanEntry.path).trans ?_
  rw [List.map_map]
  have hcomp : (PlanEntry.path ∘ fun kv : String × RawRecord =>
      classify force kv.1 kv.2 (dest.lookup kv.1)) = Prod.fst := by
    funext kv
    exact classify_path force kv.1 kv.2 (dest.lookup kv.1)
  rw [hcomp]

/-- Claim C4, as stated, is false at this input: the conflicts collection the
repository computes (`GenerationPlan.analyze_conflicts`) returns the paths in
the iteration order of `files` — here `["b.txt", "a.txt"]` — which is not
sorted by path. -/
theorem C4_counterexample :
    analyze_conflicts
      [("b.txt", create_file_snapshot (FileContent.text "x")),
       ("a.txt", create_file_snapshot (FileContent.text "y"))]
      (DestRoot.dir [("a.txt", FileContent.text "old"), ("b.txt", FileContent.text "old2")])
      false = ["b.txt", "a.txt"]
    ∧ ¬ (["b.txt", "a.txt"] : List String).Sorted pathLE :=
  ⟨by decide, by decide⟩

/-- Claim C4 (amended): plan entries are always sorted by path, and two
snapshots equal as mappings (permutations of each other with distinct keys)
yield the same entry sequence; the conflicts set derived from the plan as its
`skip-exists` paths is likewise sorted, but the conflicts list computed by
`GenerationPlan.analyze_conflicts` follows the iteration order of `files` and
is not sorted in general. -/
theorem C4_amended_theorem (s₁ s₂ : List (String × RawRecord)) (dest : DestRoot) (force : Bool)
    (hnd : (s₁.map Prod.fst).Nodup) (hperm : s₁.Perm s₂) :
    (plan_against_destination s₁ dest force).Sorted entryLE
    ∧ plan_against_destination s₁ dest force = plan_against_destination s₂ dest force
    ∧ (conflictsFromPlan (plan_against_destination s₁ dest force)).Sorted pathLE := by
  have hs₁ : (plan_against_destination s₁ dest force).Sorted entryLE :=
    List.sorted_insertionSort entryLE _
  have hs₂ : (plan_against_destination s₂ dest force).Sorted entryLE :=
    List.sorted_insertionSort entryLE _
  have hp : (plan_against_destination s₁ dest force).Perm
      (plan_against_destination s₂ dest force) := by
    unfold plan_against_destination
    exact (List.perm_insertionSort entryLE _).trans
      ((hperm.map _).trans (List.perm_insertionSort entryLE _).symm)
  have hnd₁ : ((plan_against_destination s₁ dest force).map PlanEntry.path).Nodup :=
    (plan_paths_perm s₁ dest force).nodup_iff.mpr hnd
  have hnd₂ : ((plan_against_destination s₂ dest force).map PlanEntry.path).Nodup :=
    (plan_paths_perm s₂ dest force).nodup_iff.mpr
      (((hperm.map Prod.fst).nodup_iff).mp hnd)
  refine ⟨hs₁, ?_, ?_⟩
  · exact List.eq_of_perm_of_sorted hp
      (sorted_entryLT_of_nodup hs₁ hnd₁) (sorted_entryLT_of_nodup hs₂ hnd₂)
  · exact List.pairwise_map.mpr ((hs₁.filter _).imp fun h => h)

/-- Claim C4 witness: the theorem applied to a two-entry snapshot and its
reversal; the hypotheses are discharged at these concrete lists. -/
theorem C4_witness :
    (plan_against_destination
        [("b.txt", read_file_safe (FileContent.text "x")),
         ("a.txt", read_file_safe (FileContent.text "y"))]
        (DestRoot.dir []) false).Sorted entryLE
    ∧ plan_against_destination
        [("b.txt", read_file_safe (FileContent.text "x")),
         ("a.txt", read_file_safe (FileContent.text "y"))]
        (DestRoot.dir []) false
      = plan_against_destination
        [("a.txt", read_file_safe (FileContent.text "y")),
         ("b.txt", read_file_safe (FileContent.text "x"))]
        (DestRoot.dir []) false
    ∧ (conflictsFromPlan (plan_against_destination
        [("b.txt", read_file_safe (FileContent.text "x")),
         ("a.txt", read_file_safe (FileContent.text "y"))]
        (DestRoot.dir []) false)).Sorted pathLE :=
  C4_amended_theorem
    [("b.txt", read_file_safe (FileContent.text "x")),
     ("a.txt", read_file_safe (FileContent.text "y"))]
    [("a.txt", read_file_safe (FileContent.text "y")),
     ("b.txt", read_file_safe (FileContent.text "x"))]
    (DestRoot.dir []) false (by decide) (List.Perm.swap _ _ _)

/-- Claim C5: the Planner is a pure function of the snapshot, the destination's
current file contents, and the force flag — its output only depends on the
destination through the contents found at the snapshot's own paths, so two runs
against destination states that agree there (in particular two runs with no
intervening mutation) yield identical plans. -/
theorem C5_theorem (snapshot : List (String × RawRecord)) (d₁ d₂ : DestRoot) (force : Bool)
    (h : ∀ kv ∈ snapshot, d₁.lookup kv.1 = d₂.lookup kv.1) :
    plan_against_destination snapshot d₁ force = plan_against_destination snapshot d₂ force := by
  unfold plan_against_destination
  congr 1
  exact List.map_congr_left fun kv hkv => by rw [h kv hkv]

/-- Claim C5 witness: two runs against the same concrete destination state. -/
theorem C5_witness :
    plan_against_destination [("a.txt", read_file_safe (FileContent.text "hi"))]
      (DestRoot.dir [("a.txt", FileContent.text "old")]) false
    = plan_against_destination [("a.txt", read_file_safe (FileContent.text "hi"))]
      (DestRoot.dir [("a.txt", FileContent.text "old")]) false :=
  C5_theorem [("a.txt", read_file_safe (FileContent.text "hi"))]
    (DestRoot.dir [("a.txt", FileContent.text "old")])
    (DestRoot.dir [("a.txt", FileContent.text "old")]) false (by decide)

/-- Claim C6, as stated, is false at this input: with the destination root
occupied by a plain file, `plan_against_destination` does not fail — `dest /
rel` exists for no snapshot path, so every entry is classified `create`. -/
theorem C6_counterexample :
    plan_against_destination [("a.txt", read_file_safe (FileContent.text "hello"))]
      (DestRoot.file (FileContent.text "x")) false
    = [⟨"a.txt", "create", 5, ""⟩] := by
  decide

/-- Claim C6 (amended): the Planner itself never fails when the destination
root is a plain file; it treats the destination as having no existing files
and classifies every snapshot entry as `create` (and `analyze_conflicts`
likewise reports no conflicts).  The destination-is-a-file error is raised
only by `ProjectValidator.validate_destination`, which the generation path
calls but the planning path does not. -/
theorem C6_amended_theorem (snapshot : List (String × RawRecord)) (c : FileContent)
    (force : Bool) :
    (∀ e ∈ plan_against_destination snapshot (DestRoot.file c) force, e.status = "create")
    ∧ (∀ files, analyze_conflicts files (DestRoot.file c) force = [])
    ∧ validate_destination (DestRoot.file c) force
        = Except.error "Destination exists and is a file" := by
  refine ⟨?_, ?_, rfl⟩
  · intro e he
    rcases (mem_plan_iff _ _ _ _).mp he with ⟨kv, _, rfl⟩
    rfl
  · intro files
    unfold analyze_conflicts
    split
    · rfl
    · rw [List.filter_eq_nil_iff.mpr, List.map_nil]
      intro kv _
      simp [DestRoot.lookup]

/-- Claim C6 witness: the amended theorem applied at a concrete snapshot and
file-occupied destination root. -/
theorem C6_witness :
    (∀ e ∈ plan_against_destination [("a.txt", read_file_safe (FileContent.text "hello"))]
        (DestRoot.file (FileContent.text "x")) false, e.status = "create")
    ∧ (∀ files, analyze_conflicts files (DestRoot.file (FileContent.text "x")) false = [])
    ∧ validate_destination (DestRoot.file (FileContent.text "x")) false
        = Except.error "Destination exists and is a file" :=
  C6_amended_theorem [("a.txt", read_file_safe (FileContent.text "hello"))]
    (FileContent.text "x") false

/-- Claim C7, as stated, is false at this input: the existing destination file
decodes as the two-byte text "ab" while the snapshot entry is binary with
recorded size 2 — the byte sizes agree, yet the planner classifies the pair as
differing (`skip-exists` without force), because the size-only fallback runs
only when reading the existing file raises `UnicodeDecodeError`. -/
theorem C7_counterexample :
    (FileContent.text "ab").byteSize = (read_file_safe (FileContent.binary [200, 201])).size
    ∧ contentSame (read_file_safe (FileContent.binary [200, 201])) (FileContent.text "ab")
        = false
    ∧ (classify false "f.bin" (read_file_safe (FileContent.binary [200, 201]))
        (some (FileContent.text "ab"))).status = "skip-exists" := by
  refine ⟨by decide, by decide, by decide⟩

/-- Claim C7 (amended): when the existing destination file cannot be decoded
as UTF-8, the planner's equality check falls back to comparing raw byte length
only — the pair is classified identical exactly when the existing byte size
equals the snapshot entry's recorded size, whatever the snapshot entry's kind;
but when the existing file decodes as text and the snapshot entry is binary,
the pair is always classified as differing, regardless of sizes. -/
theorem C7_amended_theorem (meta : RawRecord) (bytes : List Nat) (s : String) :
    contentSame meta (FileContent.binary bytes) = (bytes.length == meta.size)
    ∧ contentSame (read_file_safe (FileContent.binary bytes)) (FileContent.text s) = false := by
  constructor
  · rfl
  · simp [contentSame, read_file_safe]

/-- Claim C8, as stated, is false at this input: for a text file holding the
two-byte UTF-8 character "é", `TemplateEngine._create_file_snapshot` records
size 1 — the decoded character count — not the byte length 2. -/
theorem C8_counterexample :
    (create_file_snapshot (FileContent.text "é")).size = 1
    ∧ (FileContent.text "é").byteSize = 2
    ∧ (create_file_snapshot (FileContent.text "é")).size ≠ (FileContent.text "é").byteSize := by
  refine ⟨by decide, by decide, by decide⟩

/-- Claim C8 (amended): both snapshotters classify a file as text exactly when
its bytes decode as UTF-8 (recording the decoded text) and as binary on decode
failure (recording an opaque payload); `_read_file_safe` records the byte
length as the size in both cases, while `_create_file_snapshot` records the
decoded character count for text files and the byte length only for binary
files. -/
theorem C8_amended_theorem (fc : FileContent) :
    ((read_file_safe fc).type = "text" ↔ ∃ s, fc = FileContent.text s)
    ∧ ((read_file_safe fc).text = match fc with
        | .text s => some s
        | .binary _ => none)
    ∧ (read_file_safe fc).size = fc.byteSize
    ∧ ((create_file_snapshot fc).is_binary = false ↔ ∃ s, fc = FileContent.text s)
    ∧ (create_file_snapshot fc).size = (match fc with
        | .text s => s.length
        | .binary b => b.length) := by
  cases fc <;> simp [read_file_safe, create_file_snapshot, FileContent.byteSize]

/-- Resolution only ever stacks plain segments: whatever survives into the
resolved path is either from the initial stack or a segment that is not
empty, `"."`, or `".."`. -/
theorem resolveSegs_good : ∀ (segs stack out : List String),
    (∀ x ∈ stack, x ≠ "" ∧ x ≠ "." ∧ x ≠ "..") →
    resolveSegs stack segs = some out →
    ∀ x ∈ out, x ≠ "" ∧ x ≠ "." ∧ x ≠ ".."
  | [], stack, out, hst, h => by
    simp only [resolveSegs, Option.some.injEq] at h
    subst h
    intro x hx
    exact hst x (List.mem_reverse.mp hx)
  | seg :: rest, stack, out, hst, h => by
    simp only [resolveSegs] at h
    split at h
    · exact resolveSegs_good rest stack out hst h
    · split at h
      · cases stack with
        | nil => cases h
        | cons a t =>
          exact resolveSegs_good rest t out
            (fun x hx => hst x (List.mem_cons_of_mem a hx)) h
      · rename_i h₁ h₂
        refine resolveSegs_good rest (seg :: stack) out ?_ h
        intro x hx
        rcases List.mem_cons.mp hx with rfl | hx'
        · push_neg at h₁
          exact ⟨h₁.1, h₁.2, h₂⟩
        · exact hst x hx'

/-- Claim C9, as stated, is false at this input: a rendered output path that
escapes the sandbox root (`../evil.txt`) is silently dropped from the snapshot
— the build returns normally with an empty mapping instead of failing with a
TemplateError — while a sibling in-root path is kept. -/
theorem C9_counterexample :
    snapshot_render_to_memory [(RenderPath.rel ["..", "evil.txt"], FileContent.text "x")] = []
    ∧ snapshot_render_to_memory [(RenderPath.rel ["a.txt"], FileContent.text "x")]
        = [(["a.txt"], read_file_safe (FileContent.text "x"))] :=
  ⟨by decide, by decide⟩

/-- Claim C9 (amended): every key of a snapshot produced by
`snapshot_render_to_memory` is a relative path whose segments are plain names
— never `".."`, `"."`, or empty (in particular no absolute root) — but a
rendered output path escaping the sandbox root is silently omitted from the
snapshot rather than reported through a TemplateError, which the code never
raises. -/
theorem C9_amended_theorem (render : List (RenderPath × FileContent)) (key : List String)
    (h : key ∈ (snapshot_render_to_memory render).map Prod.fst) :
    ∀ seg ∈ key, seg ≠ "" ∧ seg ≠ "." ∧ seg ≠ ".." := by
  rcases List.mem_map.mp h with ⟨kr, hkr, rfl⟩
  rcases List.mem_filterMap.mp hkr with ⟨pf, _, hsome⟩
  rcases hp : pf.1 with segs | segs
  · rw [hp] at hsome
    simp only at hsome
    rcases Option.map_eq_some'.mp hsome with ⟨rs, hrs, hpair⟩
    have hfst : kr.1 = rs := by rw [← hpair]
    rw [hfst]
    exact resolveSegs_good segs [] rs (by simp) hrs
  · rw [hp] at hsome
    cases hsome

/-- Claim C9 witness: the amended theorem applied to a concrete render whose
path contains empty and dot segments, which resolution removes, evaluated at
each segment of the resulting key. -/
theorem C9_witness :
    ("sub" ≠ "" ∧ "sub" ≠ "." ∧ "sub" ≠ "..")
    ∧ ("b.txt" ≠ "" ∧ "b.txt" ≠ "." ∧ "b.txt" ≠ "..") :=
  ⟨C9_amended_theorem
      [(RenderPath.rel ["sub", "", ".", "b.txt"], FileContent.text "x")]
      ["sub", "b.txt"] (by decide) "sub" (by decide),
   C9_amended_theorem
      [(RenderPath.rel ["sub", "", ".", "b.txt"], FileContent.text "x")]
      ["sub", "b.txt"] (by decide) "b.txt" (by decide)⟩

/-- Characters surviving `collapseHyphens` come from its input. -/
theorem mem_collapseHyphens : ∀ (l : List Char) (c : Char), c ∈ collapseHyphens l → c ∈ l
  | [], c, h => by simpa [collapseHyphens] using h
  | [d], c, h => by simpa [collapseHyphens] using h
  | a :: b :: rest, c, h => by
    simp only [collapseHyphens] at h
    split at h
    · exact List.mem_cons_of_mem a (mem_collapseHyphens (b :: rest) c h)
    · rcases List.mem_cons.mp h with rfl | h'
      · exact List.mem_cons_self c _
      · exact List.mem_cons_of_mem a (mem_collapseHyphens (b :: rest) c h')

/-- Characters surviving `stripBoth` come from its input. -/
theorem mem_stripBoth {p : Char → Bool} {cs : List Char} {c : Char}
    (h : c ∈ stripBoth p cs) : c ∈ cs := by
  unfold stripBoth at h
  rw [List.mem_reverse] at h
  have h₁ := (List.dropWhile_sublist p).subset h
  rw [List.mem_reverse] at h₁
  exact (List.dropWhile_sublist p).subset h₁

/-- The head surviving `dropWhile p` fails `p`. -/
theorem head_dropWhile_false {p : Char → Bool} :
    ∀ (l : List Char) (a : Char), (l.dropWhile p).head? = some a → p a = false
  | [], a, h => by simp [List.dropWhile] at h
  | c :: rest, a, h => by
    rw [List.dropWhile_cons] at h
    split at h
    · exact head_dropWhile_false rest a h
    · simp only [List.head?_cons, Option.some.injEq] at h
      subst h
      rename_i hc
      simpa using hc

/-- A nonempty suffix has the same last element. -/
theorem getLast?_of_suffix {l₁ l₂ : List Char} (h : l₁ <:+ l₂) (hne : l₁ ≠ []) :
    l₁.getLast? = l₂.getLast? := by
  rcases h with ⟨t, rfl⟩
  rw [List.getLast?_append]
  cases hl : l₁.getLast? with
  | none => exact absurd (by simpa using hl) hne
  | some a => rfl

/-- The first character surviving `stripBoth p` fails `p`. -/
theorem stripBoth_head_false {p : Char → Bool} (cs : List Char) (a : Char)
    (h : (stripBoth p cs).head? = some a) : p a = false := by
  unfold stripBoth at h
  rw [List.head?_reverse] at h
  have hne : (cs.dropWhile p).reverse.dropWhile p ≠ [] := by
    intro hnil
    rw [hnil] at h
    simp at h
  rw [getLast?_of_suffix (List.dropWhile_suffix p) hne, List.getLast?_reverse] at h
  exact head_dropWhile_false _ a h

/-- The last character surviving `stripBoth p` fails `p`. -/
theorem stripBoth_getLast_false {p : Char → Bool} (cs : List Char) (a : Char)
    (h : (stripBoth p cs).getLast? = some a) : p a = false := by
  unfold stripBoth at h
  rw [List.getLast?_reverse] at h
  exact head_dropWhile_false _ a h

/-- Stripping ends preserves the no-adjacent-hyphens property. -/
theorem chain'_stripBoth {p : Char → Bool} {cs : List Char}
    (h : cs.Chain' fun a b => ¬(a = '-' ∧ b = '-')) :
    (stripBoth p cs).Chain' fun a b => ¬(a = '-' ∧ b = '-') := by
  unfold stripBoth
  have h1 : (cs.dropWhile p).Chain' fun a b => ¬(a = '-' ∧ b = '-') :=
    h.suffix (List.dropWhile_suffix p)
  have h2 : ((cs.dropWhile p).reverse).Chain'
      (flip fun a b : Char => ¬(a = '-' ∧ b = '-')) := by
    rw [List.chain'_reverse]
    exact h1
  have h3 := h2.suffix (List.dropWhile_suffix p)
  rw [List.chain'_reverse]
  exact h3

/-- A list starting with a non-hyphen keeps its head through `collapseHyphens`. -/
theorem collapseHyphens_head_of_ne : ∀ (b : Char) (rest : List Char), b ≠ '-' →
    ∃ t, collapseHyphens (b :: rest) = b :: t
  | _, [], _ => ⟨[], rfl⟩
  | b, d :: rest, h => by
    refine ⟨collapseHyphens (d :: rest), ?_⟩
    simp only [collapseHyphens]
    rw [if_neg (by simp [h])]

/-- The output of `collapseHyphens` never has two adjacent hyphens. -/
theorem collapseHyphens_chain' : ∀ l : List Char,
    (collapseHyphens l).Chain' fun a b => ¬(a = '-' ∧ b = '-')
  | [] => List.chain'_nil
  | [c] => List.chain'_singleton c
  | a :: b :: rest => by
    simp only [collapseHyphens]
    split
    · exact collapseHyphens_chain' (b :: rest)
    · rename_i hab
      rcases eq_or_ne b '-' with rfl | hb
      · have ha : a ≠ '-' := fun hc => hab (by simp [hc])
        exact List.chain'_cons'.mpr
          ⟨fun y _ hc => ha hc.1, collapseHyphens_chain' ('-' :: rest)⟩
      · rcases collapseHyphens_head_of_ne b rest hb with ⟨t, ht⟩
        rw [ht]
        have hrec := collapseHyphens_chain' (b :: rest)
        rw [ht] at hrec
        exact List.chain'_cons.mpr ⟨fun hc => hb hc.2, hrec⟩

/-- Structural facts about `slugify`: never empty, only `[a-z0-9_-]`-class
characters survive its replacement map, no hyphen at either end, and no two
adjacent hyphens. -/
theorem slugify_props (name : String) :
    slugify name ≠ ""
    ∧ (∀ c ∈ (slugify name).data, isSlugChar c = true)
    ∧ (∀ a, (slugify name).data.head? = some a → a ≠ '-')
    ∧ (∀ a, (slugify name).data.getLast? = some a → a ≠ '-')
    ∧ (slugify name).data.Chain' fun a b => ¬(a = '-' ∧ b = '-') := by
  simp only [slugify]
  set dashed := ((stripBoth Char.isWhitespace name.data).map Char.toLower).map
    (fun c => if isSlugChar c then c else '-') with hdashed
  by_cases he : (stripBoth (fun c => c == '-') (collapseHyphens dashed)).isEmpty
  · rw [if_pos he]
    refine ⟨by decide, by decide, ?_, ?_, ?_⟩
    · intro a ha
      rw [show ("project" : String).data.head? = some 'p' from rfl] at ha
      injection ha with ha
      rw [← ha]
      decide
    · intro a ha
      rw [show ("project" : String).data.getLast? = some 't' from rfl] at ha
      injection ha with ha
      rw [← ha]
      decide
    · rw [show ("project" : String).data = ['p', 'r', 'o', 'j', 'e', 'c', 't'] from rfl]
      exact .cons (by decide) (.cons (by decide) (.cons (by decide) (.cons (by decide)
        (.cons (by decide) (.cons (by decide) .nil)))))
  · rw [if_neg he]
    refine ⟨?_, ?_, ?_, ?_, ?_⟩
    · intro hc
      have hdata : stripBoth (fun c => c == '-') (collapseHyphens dashed) = [] :=
        congrArg String.data hc
      rw [hdata] at he
      exact he rfl
    · intro c hcmem
      have h2 : c ∈ dashed := mem_collapseHyphens _ c (mem_stripBoth hcmem)
      rw [hdashed] at h2
      rcases List.mem_map.mp h2 with ⟨d, _, rfl⟩
      by_cases hd : isSlugChar d = true
      · rw [if_pos hd]; exact hd
      · rw [if_neg hd]; decide
    · intro a ha
      have := stripBoth_head_false _ a ha
      simpa using this
    · intro a ha
      have := stripBoth_getLast_false _ a ha
      simpa using this
    · exact chain'_stripBoth (collapseHyphens_chain' dashed)

/-- Replacing hyphens by underscores keeps a string nonempty. -/
theorem replaceHyphens_ne_empty {s : String} (h : s ≠ "") : replaceHyphens s ≠ "" := by
  intro hc
  apply h
  have hdata : s.data.map (fun c => if c == '-' then '_' else c) = [] :=
    congrArg String.data hc
  rw [List.map_eq_nil_iff] at hdata
  cases s
  simp_all

/-- Claim C10, as stated, is false at this input: `"a--b"` is a valid project
name, yet the constructed slug is `"a-b"` — the code also collapses runs of
literal hyphens — while the claim's description of slugification (only runs of
characters outside `[a-z0-9_-]` become single hyphens) yields `"a--b"`. -/
theorem C10_counterexample :
    validate_project_name "a--b" = true
    ∧ (model_post_init ⟨"a--b", "", ""⟩).project_slug = "a-b"
    ∧ slugClaim "a--b" = "a--b"
    ∧ (model_post_init ⟨"a--b", "", ""⟩).project_slug ≠ slugClaim "a--b" :=
  ⟨by decide, by decide, by decide, by decide⟩

/-- Claim C10 (amended): for every valid project name with empty
`project_slug` and `package_name`, post-construction the slug equals
`_slugify(project_name)` — lowercase, with runs of characters outside
`[a-z0-9_-]` and runs of hyphens each collapsed to a single hyphen, no leading
or trailing hyphen, defaulting to "project" — and the package name is the slug
with hyphens replaced by underscores; both are non-empty. -/
theorem C10_amended_theorem (name : String) (h : validate_project_name name = true) :
    (model_post_init ⟨name, "", ""⟩).project_slug = slugify name
    ∧ (model_post_init ⟨name, "", ""⟩).package_name = replaceHyphens (slugify name)
    ∧ (model_post_init ⟨name, "", ""⟩).project_slug ≠ ""
    ∧ (model_post_init ⟨name, "", ""⟩).package_name ≠ ""
    ∧ (∀ c ∈ (slugify name).data, isSlugChar c = true)
    ∧ (∀ a, (slugify name).data.head? = some a → a ≠ '-')
    ∧ (∀ a, (slugify name).data.getLast? = some a → a ≠ '-')
    ∧ (slugify name).data.Chain' fun a b => ¬(a = '-' ∧ b = '-') := by
  obtain ⟨hne, hchars, hhead, hlast, hchain⟩ := slugify_props name
  have hslug : (model_post_init ⟨name, "", ""⟩).project_slug = slugify name := by
    simp [model_post_init]
  have hpkg : (model_post_init ⟨name, "", ""⟩).package_name = replaceHyphens (slugify name) := by
    simp [model_post_init]
  refine ⟨hslug, hpkg, ?_, ?_, hchars, hhead, hlast, hchain⟩
  · rw [hslug]; exact hne
  · rw [hpkg]; exact replaceHyphens_ne_empty hne

/-- Claim C10 witness: the amended theorem applied at the valid name
`"My-Project"`. -/
theorem C10_witness :
    (model_post_init ⟨"My-Project", "", ""⟩).project_slug = slugify "My-Project"
    ∧ (model_post_init ⟨"My-Project", "", ""⟩).package_name
        = replaceHyphens (slugify "My-Project")
    ∧ (model_post_init ⟨"My-Project", "", ""⟩).project_slug ≠ ""
    ∧ (model_post_init ⟨"My-Project", "", ""⟩).package_name ≠ ""
    ∧ (∀ c ∈ (slugify "My-Project").data, isSlugChar c = true)
    ∧ (∀ a, (slugify "My-Project").data.head? = some a → a ≠ '-')
    ∧ (∀ a, (slugify "My-Project").data.getLast? = some a → a ≠ '-')
    ∧ (slugify "My-Project").data.Chain' fun a b => ¬(a = '-' ∧ b = '-') :=
  C10_amended_theorem "My-Project" (by decide)

end Devman
